import Mathlib

/-!
Verification development for the Project_Dashboard repository.

This file gives a shallow embedding, in Lean 4, of the parts of the
program that the specification talks about:

* src/data_processor.py : load_and_process_data and its helpers
  (sprint-ordinal parsing, the canonical sprint axis, the velocity,
  completion, capacity, density, stage and RAID-summary metrics);
* src/ai_engine.py : _fetch_gemini_response (retry with exponential
  backoff), _execute_tool (tool dispatch), chat_with_agent (the bounded
  agent loop);
* src/tools_registry.py : the Tool record and registry shape used by
  _execute_tool.

Tables (pandas DataFrames) are modelled as lists of typed records plus,
where validation is concerned, an explicit list of column names.  NaN-able
cells are Option values (pd.to_datetime with errors = coerce gives none for
an unparsable date, an absent StoryPoints cell is none and fillna(0) is
Option.getD 0).  Python sorts are modelled with the stable
List.insertionSort.  The theorems at the end of the file settle the frozen
claims about this program.
-/

namespace ProjectDashboard

/-- Lexicographic comparison of character lists by code point, used to model
the ascending key sort that pandas groupby applies to its group keys. -/
def charListLe : List Char → List Char → Bool
  | [], _ => true
  | _ :: _, [] => false
  | a :: as, b :: bs =>
    if a.toNat < b.toNat then true
    else if a.toNat = b.toNat then charListLe as bs
    else false

/-- Lexicographic string comparison (model of the default ascending sort on
string group keys). -/
def strLe (a b : String) : Bool := charListLe a.data b.data

/-- The first maximal run of decimal digits in a character list: the model of
a Python re search for one-or-more digits, as used on sprint identifiers in
src/data_processor.py lines 30-32 and 60-63. -/
def firstDigitRun : List Char → Option (List Char)
  | [] => none
  | c :: cs =>
    if c.isDigit then some (c :: cs.takeWhile (fun d => d.isDigit))
    else firstDigitRun cs

/-- The numeric value of a digit run, as Python int() reads it. -/
def natOfDigits (ds : List Char) : Nat :=
  ds.foldl (fun acc c => acc * 10 + (c.toNat - 48)) 0

/-- SprintNumeric extraction (src/data_processor.py line 30-32): the integer
value of the first digit run of the identifier, none when the identifier has
no digit (in the source that row gets NaN and is dropped at line 33). -/
def parseSprintNumeric (s : String) : Option Nat :=
  (firstDigitRun s.data).map natOfDigits

/-- The sort key of line 62: the parsed ordinal, with 0 for identifiers
without a digit (the else-0 branch of the lambda). -/
def sprintSortKey (s : String) : Nat := (parseSprintNumeric s).getD 0

/-- Deduplication keeping the first occurrence of each element, the order
pandas unique() uses; seen accumulates the elements already emitted. -/
def dedupKeepFirst {α : Type} [DecidableEq α] (seen : List α) : List α → List α
  | [] => []
  | x :: xs =>
    if x ∈ seen then dedupKeepFirst seen xs
    else x :: dedupKeepFirst (x :: seen) xs

/-- A row of the raw JIRA table.  storyPoints is none when the cell is
absent (NaN); line 27 of src/data_processor.py fills it with 0. -/
structure JiraIssue where
  itype : String
  status : String
  sprintID : String
  assignee : String
  storyPoints : Option Nat
deriving DecidableEq, Repr

/-- A cleaned JIRA row: story points filled with 0 and the parsed
SprintNumeric attached (src/data_processor.py lines 27-34). -/
structure CleanIssue where
  itype : String
  status : String
  sprintID : String
  assignee : String
  points : Nat
  numeric : Nat
deriving DecidableEq, Repr

/-- One cleaned row: the raw row with story points filled (line 27) and the
parsed ordinal n attached (line 30). -/
def cleanRow (i : JiraIssue) (n : Nat) : CleanIssue :=
  ⟨i.itype, i.status, i.sprintID, i.assignee, i.storyPoints.getD 0, n⟩

/-- Lines 27-34: fill story points, parse SprintNumeric, drop the rows whose
identifier has no parsable integer. -/
def cleanJira (issues : List JiraIssue) : List CleanIssue :=
  issues.filterMap fun i => (parseSprintNumeric i.sprintID).map (cleanRow i)

/-- Line 35: the cleaned table sorted by SprintNumeric. -/
def sortedJira (issues : List JiraIssue) : List CleanIssue :=
  List.insertionSort (fun a b => a.numeric ≤ b.numeric) (cleanJira issues)

/-- Lines 60-63: the canonical sprint axis, the deduplicated identifiers
sorted by sprintSortKey. -/
def uniqueSprintsSorted (issues : List JiraIssue) : List String :=
  List.insertionSort (fun a b => sprintSortKey a ≤ sprintSortKey b)
    (dedupKeepFirst [] ((sortedJira issues).map (fun i => i.sprintID)))

/-- Line 37: the Story-type rows. -/
def jiraStories (issues : List JiraIssue) : List CleanIssue :=
  (sortedJira issues).filter (fun i => i.itype == "Story")

/-- Line 38: the Done Story rows. -/
def jiraDone (issues : List JiraIssue) : List CleanIssue :=
  (jiraStories issues).filter (fun i => i.status == "Done")

/-- Line 71: completed points of a sprint. -/
def velocityFor (issues : List JiraIssue) (s : String) : Nat :=
  (((jiraDone issues).filter (fun i => i.sprintID == s)).map
    (fun i => i.points)).sum

/-- Line 78: committed points of a sprint. -/
def committedFor (issues : List JiraIssue) (s : String) : Nat :=
  (((jiraStories issues).filter (fun i => i.sprintID == s)).map
    (fun i => i.points)).sum

/-- Model of pd.merge(left, right, on = key, how = outer).fillna(0) for
tables with one numeric column each: every left key row paired with the
matching right value or 0, then the right rows whose key the left side
lacks, with 0 on the left. -/
def outerMergeFill (left right : List (String × Nat)) :
    List (String × Nat × Nat) :=
  (left.map fun kv => (kv.1, kv.2, ((List.lookup kv.1 right).getD 0)))
    ++ ((right.filter fun kv => (List.lookup kv.1 left).isNone).map
          fun kv => (kv.1, 0, kv.2))

/-- Lines 69-73: the velocity table over the canonical axis. -/
def velocityPairs (issues : List JiraIssue) : List (String × Nat) :=
  (uniqueSprintsSorted issues).map fun s => (s, velocityFor issues s)

/-- Lines 76-80: the committed table over the canonical axis. -/
def committedPairs (issues : List JiraIssue) : List (String × Nat) :=
  (uniqueSprintsSorted issues).map fun s => (s, committedFor issues s)

/-- Line 82: the completion trend, an outer merge of committed and
completed points filled with 0.  Each record is
(SprintID, CommittedPoints, CompletedPoints). -/
def completionTrend (issues : List JiraIssue) : List (String × Nat × Nat) :=
  outerMergeFill (committedPairs issues) (velocityPairs issues)

/-- A row of the raw defects table (the three required columns). -/
structure Defect where
  raisedIn : String
  status : String
  phase : String
deriving DecidableEq, Repr

/-- Line 102: defects raised in a sprint. -/
def defectCountFor (defects : List Defect) (s : String) : Nat :=
  (defects.filter (fun d => d.raisedIn == s)).length

/-- Line 105: stories of a sprint. -/
def storyCountFor (issues : List JiraIssue) (s : String) : Nat :=
  ((jiraStories issues).filter (fun i => i.sprintID == s)).length

/-- Lines 99-103: the defect-count table, keyed over the canonical
(JIRA-derived) sprint axis. -/
def defectCountPairs (issues : List JiraIssue) (defects : List Defect) :
    List (String × Nat) :=
  (uniqueSprintsSorted issues).map fun s => (s, defectCountFor defects s)

/-- Lines 100-106: the story-count table over the same axis. -/
def storyCountPairs (issues : List JiraIssue) : List (String × Nat) :=
  (uniqueSprintsSorted issues).map fun s => (s, storyCountFor issues s)

/-- Lines 111-112: the merged density view,
(RaisedIn, DefectCount, StoryCount). -/
def densityCounts (issues : List JiraIssue) (defects : List Defect) :
    List (String × Nat × Nat) :=
  outerMergeFill (defectCountPairs issues defects) (storyCountPairs issues)

/-- Line 115: DefectCount / StoryCount.replace(0, nan).  A zero story count
becomes NaN, so the quotient is undefined (none); otherwise exact rational
division (the float quotient of two machine naturals of this size is their
real quotient).  Total: never an exception. -/
def defectDensity (defectCount storyCount : Nat) : Option ℚ :=
  if storyCount = 0 then none
  else some ((defectCount : ℚ) / (storyCount : ℚ))

/-- Line 115 applied across the merged view: the DefectDensity column
(computed on the frame, then not included in the returned record list). -/
def densityRatios (issues : List JiraIssue) (defects : List Defect) :
    List (String × Option ℚ) :=
  (densityCounts issues defects).map fun r => (r.1, defectDensity r.2.1 r.2.2)

/-- Line 120: open defects grouped by phase, keys in the sorted order pandas
groupby yields. -/
def stageDistribution (defects : List Defect) : List (String × Nat) :=
  let openDefects := defects.filter (fun d => d.status == "Open")
  (List.insertionSort (fun a b => strLe a b = true)
      (dedupKeepFirst [] (openDefects.map (fun d => d.phase)))).map
    fun p => (p, (openDefects.filter (fun d => d.phase == p)).length)

/-- Line 87: the five largest distinct sprint ordinals. -/
def latestSprintNumerics (issues : List JiraIssue) : List Nat :=
  (List.insertionSort (fun a b => b ≤ a)
    (dedupKeepFirst [] ((sortedJira issues).map (fun i => i.numeric)))).take 5

/-- Line 88: the identifiers of those sprints. -/
def latestSprintNames (issues : List JiraIssue) : List String :=
  dedupKeepFirst []
    (((sortedJira issues).filter
        (fun i => (latestSprintNumerics issues).contains i.numeric)).map
      (fun i => i.sprintID))

/-- Line 90: the rows of the capacity window. -/
def recentJira (issues : List JiraIssue) : List CleanIssue :=
  (sortedJira issues).filter
    (fun i => (latestSprintNames issues).contains i.sprintID)

/-- A capacity record: assignee, summed load, the assumed capacity 40. -/
structure CapacityRec where
  assignee : String
  load : Nat
  assumedCapacity : Nat
deriving DecidableEq, Repr

/-- Lines 92-95: load per assignee over the capacity window, the constant
capacity 40 attached, sorted by load descending. -/
def capacityData (issues : List JiraIssue) : List CapacityRec :=
  List.insertionSort (fun a b => b.load ≤ a.load)
    ((List.insertionSort (fun a b => strLe a b = true)
        (dedupKeepFirst [] ((recentJira issues).map (fun i => i.assignee)))).map
      fun a =>
        ⟨a, ((((recentJira issues).filter (fun i => i.assignee == a)).map
              (fun i => i.points)).sum), 40⟩)

/-- A row of the raw RAID table.  targetDate models the DueDate column of
line 55: pd.to_datetime(Target Date, errors = coerce) as a day ordinal,
none for an unparsable date (NaT). -/
structure RaidItem where
  rtype : String
  status : String
  owner : String
  targetDate : Option Int
deriving DecidableEq, Repr

/-- Python substring membership, needle in hay, over character lists. -/
def listContainsSub (needle : List Char) : List Char → Bool
  | [] => needle.isEmpty
  | c :: rest => needle.isPrefixOf (c :: rest) || listContainsSub needle rest

/-- Python substring membership on strings. -/
def containsSub (needle hay : String) : Bool :=
  listContainsSub needle.data hay.data

/-- Lines 136-142, get_raid_status_display: the per-item display status.
The Open/New substring test comes first, so it wins over the overdue test;
today is the value of pd.to_datetime(today) as a day ordinal. -/
def get_raid_status_display (today : Int) (r : RaidItem) : String :=
  if containsSub "Open" r.status || containsSub "New" r.status then "⚠️ Open"
  else
    match r.targetDate with
    | some d => if d < today then "🚨 Overdue" else "🟢 Active"
    | none => "🟢 Active"

/-- A RAID summary record as returned at line 167:
(Type, Status emoji, Total, Open). -/
structure RaidRecord where
  rtype : String
  statusEmoji : String
  total : Nat
  openCount : Nat
deriving DecidableEq, Repr

/-- Lines 151-167: the RAID summary.  Only rows with Status equal to Open
are aggregated (line 151); per category the Total is the group size, Open
and Overdue count the display statuses (lines 155-159); the category emoji
starts at the healthy check mark, is set to the critical one when Overdue
is positive and then to the warning one when Open is positive — the later
assignment overwrites the earlier (lines 162-164). -/
def raidSummary (today : Int) (raid : List RaidItem) : List RaidRecord :=
  let openItems := raid.filter (fun r => r.status == "Open")
  let categories :=
    List.insertionSort (fun a b => strLe a b = true)
      (dedupKeepFirst [] (openItems.map (fun r => r.rtype)))
  categories.map fun t =>
    let items := openItems.filter (fun r => r.rtype == t)
    let displays := items.map (get_raid_status_display today)
    let openCount := (displays.filter (fun s => s == "⚠️ Open")).length
    let overdueCount := (displays.filter (fun s => s == "🚨 Overdue")).length
    let emoji :=
      if 0 < openCount then "⚠️"
      else if 0 < overdueCount then "🚨" else "✅"
    ⟨t, emoji, items.length, openCount⟩

/-- The metric tables load_and_process_data returns (lines 170-179).  The
velocity key of the returned dictionary is bound to the completion data
(line 171), hence the shared type.  The two raw display-string summaries of
lines 177-178 are presentation text and are not modelled. -/
structure Metrics where
  velocity : List (String × Nat × Nat)
  completion : List (String × Nat × Nat)
  capacity : List CapacityRec
  density : List (String × Nat × Nat)
  stage : List (String × Nat)
  raid : List RaidRecord
deriving DecidableEq, Repr

/-- The metric computation on validated tables. -/
def computeMetrics (today : Int) (jira : List JiraIssue)
    (defects : List Defect) (raid : List RaidItem) : Metrics :=
  ⟨completionTrend jira, completionTrend jira, capacityData jira,
    densityCounts jira defects, stageDistribution defects,
    raidSummary today raid⟩

/-- The three raw input tables with their header rows; the typed row lists
model the cell contents of the columns the program reads. -/
structure RawInput where
  jiraColumns : List String
  jiraRows : List JiraIssue
  defectColumns : List String
  defectRows : List Defect
  raidColumns : List String
  raidRows : List RaidItem

def required_jira_cols : List String :=
  ["StoryPoints", "Type", "Status", "SprintID", "Assignee"]

def required_defects_cols : List String := ["RaisedIn", "Status", "Phase"]

def required_raid_cols : List String :=
  ["Type", "Status", "Owner", "Target Date"]

/-- The required columns a header lacks, in required order (lines 24, 43,
51). -/
def missingCols (required cols : List String) : List String :=
  required.filter (fun c => !(cols.contains c))

/-- The result of load_and_process_data: the labeled error dictionary or
the metric tables. -/
inductive ProcessResult where
  | error (msg : String)
  | ok (m : Metrics)
deriving DecidableEq, Repr

/-- Lines 22-52 and 170-179 of src/data_processor.py: validate the three
headers in order (JIRA, defects, RAID), return the labeled error naming
the missing columns on the first failure, otherwise compute every metric. -/
def load_and_process_data (today : Int) (inp : RawInput) : ProcessResult :=
  if missingCols required_jira_cols inp.jiraColumns ≠ [] then
    .error ("JIRA data is missing required columns: "
      ++ String.intercalate ", " (missingCols required_jira_cols inp.jiraColumns)
      ++ ".")
  else if missingCols required_defects_cols inp.defectColumns ≠ [] then
    .error ("Defects data is missing required columns: "
      ++ String.intercalate ", "
          (missingCols required_defects_cols inp.defectColumns)
      ++ ".")
  else if missingCols required_raid_cols inp.raidColumns ≠ [] then
    .error ("RAID data is missing required columns: "
      ++ String.intercalate ", " (missingCols required_raid_cols inp.raidColumns)
      ++ ".")
  else
    .ok (computeMetrics today inp.jiraRows inp.defectRows inp.raidRows)

/-! ## src/ai_engine.py and src/tools_registry.py -/

/-- A JSON-serializable payload value, as carried in tool arguments, tool
results and model responses. -/
inductive Value where
  | str (s : String)
  | num (n : Int)
  | bool (b : Bool)
deriving DecidableEq, Repr

/-- MAX_RETRIES (src/ai_engine.py line 12). -/
def MAX_RETRIES : Nat := 5

/-- What one HTTP POST to the model endpoint does: returns a JSON body,
raises an HTTPError with a status and response text, or raises some other
exception (connection failure, malformed payload). -/
inductive HttpAttempt where
  | success (body : Value)
  | httpError (statusCode : Nat) (text : String)
  | otherExc (msg : String)
deriving DecidableEq, Repr

/-- The value _fetch_gemini_response returns: the response JSON or the
error dictionary. -/
inductive FetchResult where
  | ok (body : Value)
  | error (msg : String)
deriving DecidableEq, Repr

/-- The observable behaviour of one _fetch_gemini_response call: how many
HTTP requests it made, the backoff sleeps it performed in order, and its
returned value. -/
structure FetchTrace where
  calls : Nat
  sleeps : List Nat
  result : FetchResult
deriving DecidableEq, Repr

/-- The retryable status classes of line 39. -/
def retryableStatus (statusCode : Nat) : Bool :=
  statusCode == 429 || statusCode == 500 || statusCode == 503

/-- The retry loop of src/ai_engine.py lines 26-47.  attempts gives the
outcome of the HTTP request of each attempt index; attempt is the current
index and remaining the attempts the range still holds.  A retryable status
before the last attempt sleeps 2 ^ attempt and retries; any other HTTP
error, any other exception and any success returns at once.  The fall-through
message of line 47 is returned when the range is exhausted (unreachable from
fetch_gemini_response, since the last attempt never continues). -/
def fetchLoop (attempts : Nat → HttpAttempt) :
    Nat → Nat → FetchTrace
  | _, 0 =>
    ⟨0, [], .error
      "Failed to connect to Gemini API after multiple retries (Rate Limit or Connection Error)."⟩
  | attempt, remaining + 1 =>
    match attempts attempt with
    | .success body => ⟨1, [], .ok body⟩
    | .httpError statusCode text =>
      if retryableStatus statusCode && decide (attempt < MAX_RETRIES - 1) then
        let rest := fetchLoop attempts (attempt + 1) remaining
        ⟨rest.calls + 1, 2 ^ attempt :: rest.sleeps, rest.result⟩
      else
        ⟨1, [], .error ("AI API Error: HTTP Error: " ++ toString statusCode
          ++ " - " ++ text)⟩
    | .otherExc msg =>
      ⟨1, [], .error
        ("An unexpected error occurred during the API call: " ++ msg)⟩

/-- Lines 15-47, _fetch_gemini_response: an empty API key short-circuits
with the credential error before any request; otherwise the retry loop runs
over range(MAX_RETRIES). -/
def fetch_gemini_response (apiKey : String) (attempts : Nat → HttpAttempt) :
    FetchTrace :=
  if apiKey = "" then ⟨0, [], .error "API Key required for AI analysis."⟩
  else fetchLoop attempts 0 MAX_RETRIES

/-- A declared tool parameter (src/tools_registry.py): its schema fields,
of which only the optional default matters to dispatch. -/
structure ToolParam where
  description : String
  default? : Option Value
deriving Repr

/-- A registry entry (class Tool of src/tools_registry.py): the wrapped
function may raise, modelled as Except. -/
structure Tool where
  description : String
  func : List (String × Value) → Except String Value
  parameters : List (String × ToolParam)

/-- A registry: tool name to Tool (the TOOL_REGISTRY dictionary shape). -/
def Registry := List (String × Tool)

/-- The argument-resolution loop of _execute_tool (src/ai_engine.py lines
61-74): for each declared parameter, a preloaded dataframe of that name
wins, else the model-supplied argument, else the declared default, else the
parameter is left unsupplied. -/
def resolveCallArgs (params : List (String × ToolParam))
    (args preloaded : List (String × Value)) : List (String × Value) :=
  params.foldl
    (fun acc p =>
      match List.lookup p.1 preloaded with
      | some v => acc ++ [(p.1, v)]
      | none =>
        match List.lookup p.1 args with
        | some v => acc ++ [(p.1, v)]
        | none =>
          match p.2.default? with
          | some v => acc ++ [(p.1, v)]
          | none => acc)
    []

/-- What _execute_tool returns: the tool result value or an error string
(both are plain return values in the source; nothing propagates). -/
inductive ToolOutcome where
  | ok (v : Value)
  | errorMsg (s : String)
deriving Repr

/-- Lines 50-86, _execute_tool: an unregistered name returns the
not-found error naming it; otherwise the resolved arguments are passed to
the wrapped function and any exception it raises is caught and returned as
the descriptive error string of line 86. -/
def execute_tool (registry : Registry) (toolName : String)
    (args preloaded : List (String × Value)) : ToolOutcome :=
  match List.lookup toolName registry with
  | none =>
    .errorMsg ("Error: Tool \'" ++ toolName ++ "\' not found in registry.")
  | some tool =>
    match tool.func (resolveCallArgs tool.parameters args preloaded) with
    | .ok v => .ok v
    | .error e =>
      .errorMsg ("Error executing tool \'" ++ toolName ++ "\': " ++ e)

/-- One part of a Gemini content message: text, a tool-call request, or a
tool result. -/
inductive Part where
  | text (s : String)
  | functionCall (name : String) (args : List (String × Value))
  | functionResponse (name : String) (result : ToolOutcome)
deriving Repr

/-- A role-tagged history message. -/
structure Msg where
  role : String
  parts : List Part
deriving Repr

/-- The text field of a part, none for the other part shapes (the
dictionary get of line 115). -/
def partTextOf : Part → Option String
  | .text s => some s
  | _ => none

/-- Line 115-116: append the user query unless the last history message
already carries it as the text of its first part.  (When the last message
has no first part the source raises an index error; the model reads the
absent text as non-matching, which this file only uses with well-formed
histories.) -/
def entryHistory (history : List Msg) (q : String) : List Msg :=
  match history.getLast? with
  | none => history ++ [⟨"user", [.text q]⟩]
  | some m =>
    if (m.parts.head?.bind partTextOf) = some q then history
    else history ++ [⟨"user", [.text q]⟩]

/-- What one model call yields to the loop body, after the error check of
line 135 and the candidate extraction of lines 139-146: an upstream error
string, a missing candidate, or the content parts of the first candidate. -/
inductive ModelTurn where
  | apiError (msg : String)
  | emptyCandidate
  | content (parts : List Part)

/-- The tool-call requests among the parts (lines 150-155). -/
def functionCallsOf (parts : List Part) : List (String × List (String × Value)) :=
  parts.filterMap fun p =>
    match p with
    | .functionCall n a => some (n, a)
    | _ => none

/-- The history message a dispatched tool call appends (lines 162-165). -/
def toolResultMsg (name : String) (out : ToolOutcome) : Msg :=
  ⟨"function", [.functionResponse name out]⟩

/-- What chat_with_agent hands back, with the number of model calls it
performed as observable instrumentation (each loop iteration makes exactly
one _fetch_gemini_response call). -/
structure ChatOutcome where
  response? : Option String
  error? : Option String
  history : List Msg
  modelCalls : Nat
deriving Repr

/-- Line 182: the turn-cap message. -/
def maxTurnsMsg : String :=
  "The agent reached its maximum turn limit without providing a final answer."

/-- The loop of lines 122-182.  respond is the model: the turn outcome as a
function of the history sent; exec dispatches one tool call (in the source,
execute_tool against TOOL_REGISTRY and the preloaded dataframes).  Tool
calls append their results in part order and consume a turn; a text answer
appends the model message and returns; an empty candidate or an empty
content returns the fallback message; exhausting the range returns the
turn-cap message with the history. -/
def chatLoop (respond : List Msg → ModelTurn)
    (exec : String → List (String × Value) → ToolOutcome) :
    Nat → List Msg → ChatOutcome
  | 0, history => ⟨some maxTurnsMsg, none, history, 0⟩
  | fuel + 1, history =>
    match respond history with
    | .apiError e => ⟨none, some e, history, 1⟩
    | .emptyCandidate =>
      ⟨some "I couldn\'t generate a clear response for your query (empty candidate).",
        none, history, 1⟩
    | .content parts =>
      let fcs := functionCallsOf parts
      if fcs.isEmpty then
        let texts := parts.filterMap partTextOf
        if texts.isEmpty then
          ⟨some "I couldn\'t generate a clear response for your query (empty content).",
            none, history, 1⟩
        else
          let rt := String.intercalate " " texts
          ⟨some rt, none, history ++ [⟨"model", [.text rt]⟩], 1⟩
      else
        let rest := chatLoop respond exec fuel
          (history ++ fcs.map (fun c => toolResultMsg c.1 (exec c.1 c.2)))
        { rest with modelCalls := rest.modelCalls + 1 }

/-- Lines 89-182, chat_with_agent: append the query idempotently, then run
the loop over range(5). -/
def chat_with_agent (respond : List Msg → ModelTurn)
    (exec : String → List (String × Value) → ToolOutcome)
    (userQuery : String) (history : List Msg) : ChatOutcome :=
  chatLoop respond exec 5 (entryHistory history userQuery)

/-! ## Definitions used only to state claims -/

/-- A JIRA row whose sprint identifier has a parsable embedded integer. -/
def parsableJira (i : JiraIssue) : Bool := (parseSprintNumeric i.sprintID).isSome

/-- A defect whose raised-in sprint has a parsable embedded integer. -/
def parsableDefect (d : Defect) : Bool := (parseSprintNumeric d.raisedIn).isSome

/-- Stated from the claim, for the refinement comparison: the sum of story
points of the raw issues whose Type is Story, whose Status is Done and whose
SprintID equals s. -/
def specVelocitySum (issues : List JiraIssue) (s : String) : Nat :=
  ((issues.filter
      (fun i => i.itype == "Story" && i.status == "Done" && i.sprintID == s)).map
    (fun i => i.storyPoints.getD 0)).sum

/-- Stated from the claim, for the refinement comparison: the sum of story
points of all raw Story-type issues with SprintID s, regardless of status. -/
def specCommittedSum (issues : List JiraIssue) (s : String) : Nat :=
  ((issues.filter (fun i => i.itype == "Story" && i.sprintID == s)).map
    (fun i => i.storyPoints.getD 0)).sum

/-- A model turn that requests at least one tool call. -/
def hasFunctionCall (t : ModelTurn) : Prop :=
  ∃ parts, t = .content parts ∧ functionCallsOf parts ≠ []

instance : IsTotal String (fun a b => sprintSortKey a ≤ sprintSortKey b) :=
  ⟨fun a b => Nat.le_total (sprintSortKey a) (sprintSortKey b)⟩

instance : IsTrans String (fun a b => sprintSortKey a ≤ sprintSortKey b) :=
  ⟨fun _ _ _ hab hbc => Nat.le_trans hab hbc⟩

/-! ## General list lemmas -/

lemma mem_dedupKeepFirst {α : Type} [DecidableEq α] (x : α) :
    ∀ (seen l : List α), x ∈ dedupKeepFirst seen l ↔ x ∈ l ∧ x ∉ seen := by
  intro seen l
  induction l generalizing seen with
  | nil => simp [dedupKeepFirst]
  | cons y ys ih =>
    by_cases hy : y ∈ seen
    · rw [dedupKeepFirst, if_pos hy, ih]
      constructor
      · exact fun h => ⟨List.mem_cons_of_mem _ h.1, h.2⟩
      · rintro ⟨h1, h2⟩
        rcases List.mem_cons.mp h1 with rfl | h1
        · exact absurd hy h2
        · exact ⟨h1, h2⟩
    · rw [dedupKeepFirst, if_neg hy]
      constructor
      · intro hx
        rcases List.mem_cons.mp hx with rfl | hx
        · exact ⟨List.mem_cons_self _ _, hy⟩
        · have h := (ih (y :: seen)).mp hx
          exact ⟨List.mem_cons_of_mem _ h.1,
            fun hs => h.2 (List.mem_cons_of_mem _ hs)⟩
      · rintro ⟨h1, h2⟩
        rcases List.mem_cons.mp h1 with rfl | h1
        · exact List.mem_cons_self _ _
        · by_cases hxy : x = y
          · subst hxy; exact List.mem_cons_self _ _
          · refine List.mem_cons_of_mem _ ((ih (y :: seen)).mpr ⟨h1, ?_⟩)
            simp [hxy, h2]

lemma nodup_dedupKeepFirst {α : Type} [DecidableEq α] :
    ∀ (seen l : List α), (dedupKeepFirst seen l).Nodup := by
  intro seen l
  induction l generalizing seen with
  | nil => simp [dedupKeepFirst]
  | cons y ys ih =>
    rw [dedupKeepFirst]
    split
    · exact ih seen
    · refine List.Nodup.cons ?_ (ih (y :: seen))
      intro hy
      exact ((mem_dedupKeepFirst y (y :: seen) ys).mp hy).2
        (List.mem_cons_self _ _)

lemma lookup_graph_append {β : Type} (f : String → β) (tail : List (String × β)) :
    ∀ (l : List String) (a : String), a ∈ l →
      List.lookup a (l.map (fun x => (x, f x)) ++ tail) = some (f a) := by
  intro l
  induction l with
  | nil => intro a ha; cases ha
  | cons x xs ih =>
    intro a ha
    by_cases hax : a = x
    · subst hax
      simp [List.lookup_cons]
    · have hm : a ∈ xs := by
        rcases List.mem_cons.mp ha with h | h
        · exact absurd h hax
        · exact h
      simp only [List.map_cons, List.cons_append, List.lookup_cons,
        beq_eq_false_iff_ne.mpr hax]
      exact ih a hm

lemma lookup_graph {β : Type} (f : String → β) (l : List String) (a : String)
    (ha : a ∈ l) : List.lookup a (l.map fun x => (x, f x)) = some (f a) := by
  have h := lookup_graph_append f [] l a ha
  simpa using h

lemma lookup_outerMergeFill_graph (f g : String → Nat) (l : List String)
    (a : String) (ha : a ∈ l) :
    List.lookup a
      (outerMergeFill (l.map fun x => (x, f x)) (l.map fun x => (x, g x)))
      = some (f a, g a) := by
  unfold outerMergeFill
  rw [List.map_map]
  have hcomp :
      ((fun kv : String × Nat =>
          (kv.1, kv.2, (List.lookup kv.1 (l.map fun x => (x, g x))).getD 0))
        ∘ (fun x => (x, f x)))
      = fun x => (x, f x, (List.lookup x (l.map fun y => (y, g y))).getD 0) := rfl
  rw [hcomp,
    lookup_graph_append
      (fun x => (f x, (List.lookup x (l.map fun y => (y, g y))).getD 0)) _ l a ha,
    lookup_graph g l a ha]
  rfl

lemma length_filter_map_const {α : Type} (f : α → String) (c : String) :
    ∀ l : List α, (∀ a ∈ l, f a = c) →
      ((l.map f).filter (fun s => s == c)).length = l.length := by
  intro l h
  induction l with
  | nil => rfl
  | cons x xs ih =>
    simp only [List.map_cons, List.filter_cons, h x (List.mem_cons_self _ _),
      beq_self_eq_true, if_true, List.length_cons]
    rw [ih (fun a ha => h a (List.mem_cons_of_mem _ ha))]

lemma takeWhile_append_of_all {α : Type} (p : α → Bool) :
    ∀ (l l2 : List α), (∀ c ∈ l, p c = true) →
      (l ++ l2).takeWhile p = l ++ l2.takeWhile p := by
  intro l l2 h
  induction l with
  | nil => simp
  | cons x xs ih =>
    simp only [List.cons_append, List.takeWhile_cons,
      h x (List.mem_cons_self _ _), if_true]
    rw [ih (fun c hc => h c (List.mem_cons_of_mem _ hc))]

lemma filterMap_filter_isSome {α β : Type} (f : α → Option β) (l : List α) :
    (l.filter (fun a => (f a).isSome)).filterMap f = l.filterMap f := by
  induction l with
  | nil => rfl
  | cons x xs ih =>
    cases h : f x with
    | none => simp [List.filter_cons, List.filterMap_cons, h, ih]
    | some b => simp [List.filter_cons, List.filterMap_cons, h, ih]

/-! ## Sprint-ordinal parsing lemmas -/

lemma firstDigitRun_append_of_nodigit :
    ∀ (pre rest : List Char), (∀ c ∈ pre, c.isDigit = false) →
      firstDigitRun (pre ++ rest) = firstDigitRun rest := by
  intro pre rest h
  induction pre with
  | nil => rfl
  | cons x xs ih =>
    simp only [List.cons_append, firstDigitRun, h x (List.mem_cons_self _ _),
      Bool.false_eq_true, if_false]
    exact ih (fun c hc => h c (List.mem_cons_of_mem _ hc))

lemma firstDigitRun_all_digits (d : Char) (dt post : List Char)
    (hd : d.isDigit = true) (hdt : ∀ c ∈ dt, c.isDigit = true)
    (hpost : ∀ c, post.head? = some c → c.isDigit = false) :
    firstDigitRun ((d :: dt) ++ post) = some (d :: dt) := by
  have hposttw : post.takeWhile (fun c => c.isDigit) = [] := by
    cases post with
    | nil => rfl
    | cons c cs => simp [List.takeWhile_cons, hpost c rfl]
  simp only [List.cons_append, firstDigitRun, hd, if_true, List.append_eq]
  rw [takeWhile_append_of_all _ dt post hdt, hposttw, List.append_nil]

lemma parseSprintNumeric_decomp (s : String) (pre ds post : List Char)
    (hs : s.data = pre ++ ds ++ post)
    (hpre : ∀ c ∈ pre, c.isDigit = false)
    (hne : ds ≠ [])
    (hds : ∀ c ∈ ds, c.isDigit = true)
    (hpost : ∀ c, post.head? = some c → c.isDigit = false) :
    parseSprintNumeric s = some (natOfDigits ds) := by
  unfold parseSprintNumeric
  rw [hs, List.append_assoc, firstDigitRun_append_of_nodigit pre _ hpre]
  cases ds with
  | nil => exact absurd rfl hne
  | cons d dt =>
    rw [firstDigitRun_all_digits d dt post (hds d (List.mem_cons_self _ _))
      (fun c hc => hds c (List.mem_cons_of_mem _ hc)) hpost]
    rfl

/-! ## Cleaning and axis lemmas -/

lemma cleanJira_cons_none {i : JiraIssue} {rest : List JiraIssue}
    (h : parseSprintNumeric i.sprintID = none) :
    cleanJira (i :: rest) = cleanJira rest := by
  simp [cleanJira, List.filterMap_cons, h]

lemma cleanJira_cons_some {i : JiraIssue} {rest : List JiraIssue} {n : Nat}
    (h : parseSprintNumeric i.sprintID = some n) :
    cleanJira (i :: rest) = cleanRow i n :: cleanJira rest := by
  simp [cleanJira, List.filterMap_cons, h]

lemma parse_of_mem_cleanJira {issues : List JiraIssue} {c : CleanIssue}
    (hc : c ∈ cleanJira issues) :
    parseSprintNumeric c.sprintID = some c.numeric := by
  unfold cleanJira at hc
  rcases List.mem_filterMap.mp hc with ⟨i, _, hi⟩
  rcases Option.map_eq_some'.mp hi with ⟨n, hn, rfl⟩
  simpa [cleanRow] using hn

lemma mem_axis_iff {issues : List JiraIssue} {s : String} :
    s ∈ uniqueSprintsSorted issues ↔ ∃ c ∈ cleanJira issues, c.sprintID = s := by
  simp [uniqueSprintsSorted, sortedJira, mem_dedupKeepFirst,
    List.mem_insertionSort, List.mem_map]

lemma parsable_of_mem_axis {issues : List JiraIssue} {s : String}
    (hs : s ∈ uniqueSprintsSorted issues) :
    ∃ n, parseSprintNumeric s = some n := by
  rcases mem_axis_iff.mp hs with ⟨c, hc, rfl⟩
  exact ⟨c.numeric, parse_of_mem_cleanJira hc⟩

lemma cleanJira_filter_parsable (issues : List JiraIssue) :
    cleanJira (issues.filter parsableJira) = cleanJira issues := by
  have hpred : ∀ i ∈ issues,
      parsableJira i = ((parseSprintNumeric i.sprintID).map (cleanRow i)).isSome := by
    intro i _
    unfold parsableJira
    cases parseSprintNumeric i.sprintID <;> rfl
  unfold cleanJira
  rw [List.filter_congr hpred]
  exact filterMap_filter_isSome _ issues

lemma sortedJira_filter_parsable (issues : List JiraIssue) :
    sortedJira (issues.filter parsableJira) = sortedJira issues := by
  unfold sortedJira
  rw [cleanJira_filter_parsable]

lemma uniqueSprintsSorted_filter_parsable (issues : List JiraIssue) :
    uniqueSprintsSorted (issues.filter parsableJira) = uniqueSprintsSorted issues := by
  unfold uniqueSprintsSorted
  rw [sortedJira_filter_parsable]

lemma velocityFor_filter_parsable (issues : List JiraIssue) (s : String) :
    velocityFor (issues.filter parsableJira) s = velocityFor issues s := by
  unfold velocityFor jiraDone jiraStories
  rw [sortedJira_filter_parsable]

lemma committedFor_filter_parsable (issues : List JiraIssue) (s : String) :
    committedFor (issues.filter parsableJira) s = committedFor issues s := by
  unfold committedFor jiraStories
  rw [sortedJira_filter_parsable]

lemma storyCountFor_filter_parsable (issues : List JiraIssue) (s : String) :
    storyCountFor (issues.filter parsableJira) s = storyCountFor issues s := by
  unfold storyCountFor jiraStories
  rw [sortedJira_filter_parsable]

lemma defectCountFor_filter_parsable {defects : List Defect} {s : String} {n : Nat}
    (hs : parseSprintNumeric s = some n) :
    defectCountFor (defects.filter parsableDefect) s = defectCountFor defects s := by
  unfold defectCountFor
  induction defects with
  | nil => rfl
  | cons d rest ih =>
    cases hp : parsableDefect d
    · have hne : (d.raisedIn == s) = false := by
        refine beq_eq_false_iff_ne.mpr (fun he => ?_)
        unfold parsableDefect at hp
        rw [he, hs] at hp
        cases hp
      simp only [List.filter_cons, hp, Bool.false_eq_true, if_false, hne]
      exact ih
    · simp only [List.filter_cons, hp, if_true]
      by_cases hds : (d.raisedIn == s) = true
      · simp only [List.filter_cons, hds, if_true, List.length_cons]
        rw [ih]
      · simp only [List.filter_cons, hds]
        simpa [hds] using ih

/-! ## Relating the cleaned metrics to the raw table -/

lemma cleanJira_filter_map_points (issues : List JiraIssue) {s : String} {n : Nat}
    (hs : parseSprintNumeric s = some n)
    (pc : CleanIssue → Bool) (pr : JiraIssue → Bool)
    (hcompat : ∀ i m, pc (cleanRow i m) = pr i) :
    ((cleanJira issues).filter (fun c => c.sprintID == s && pc c)).map
        (fun c => c.points)
      = (issues.filter (fun i => i.sprintID == s && pr i)).map
        (fun i => i.storyPoints.getD 0) := by
  induction issues with
  | nil => rfl
  | cons i rest ih =>
    cases h : parseSprintNumeric i.sprintID with
    | none =>
      have hne : (i.sprintID == s) = false := by
        refine beq_eq_false_iff_ne.mpr (fun he => ?_)
        rw [he, hs] at h
        cases h
      rw [cleanJira_cons_none h]
      simp only [List.filter_cons, hne, Bool.false_and, Bool.false_eq_true,
        if_false]
      exact ih
    | some m =>
      rw [cleanJira_cons_some h]
      have hpred : ((cleanRow i m).sprintID == s && pc (cleanRow i m))
          = (i.sprintID == s && pr i) := by
        rw [hcompat i m]
        rfl
      simp only [List.filter_cons, hpred]
      by_cases hcond : (i.sprintID == s && pr i) = true
      · simp only [hcond, if_true, List.map_cons]
        rw [ih]
        rfl
      · simp only [hcond]
        simpa [hcond] using ih

lemma velocityFor_eq_clean (issues : List JiraIssue) (s : String) :
    velocityFor issues s
      = (((cleanJira issues).filter
            (fun c => c.sprintID == s && (c.status == "Done" && c.itype == "Story"))).map
          (fun c => c.points)).sum := by
  unfold velocityFor jiraDone jiraStories sortedJira
  rw [List.filter_filter, List.filter_filter]
  have hperm := (((List.perm_insertionSort
      (fun a b : CleanIssue => a.numeric ≤ b.numeric) (cleanJira issues)).filter
      (fun c => (c.sprintID == s && c.status == "Done") && c.itype == "Story")).map
      (fun c : CleanIssue => c.points)).sum_eq
  rw [hperm]
  have hb : ∀ c ∈ cleanJira issues,
      ((c.sprintID == s && c.status == "Done") && c.itype == "Story")
        = (c.sprintID == s && (c.status == "Done" && c.itype == "Story")) := by
    intro c _
    cases h1 : (c.sprintID == s) <;> cases h2 : (c.status == "Done") <;>
      cases h3 : (c.itype == "Story") <;> simp [h1, h2, h3]
  rw [List.filter_congr hb]

lemma committedFor_eq_clean (issues : List JiraIssue) (s : String) :
    committedFor issues s
      = (((cleanJira issues).filter
            (fun c => c.sprintID == s && c.itype == "Story")).map
          (fun c => c.points)).sum := by
  unfold committedFor jiraStories sortedJira
  rw [List.filter_filter]
  exact (((List.perm_insertionSort
      (fun a b : CleanIssue => a.numeric ≤ b.numeric) (cleanJira issues)).filter
      (fun c => c.sprintID == s && c.itype == "Story")).map
      (fun c : CleanIssue => c.points)).sum_eq

lemma velocityFor_eq_raw (issues : List JiraIssue) {s : String} {n : Nat}
    (hs : parseSprintNumeric s = some n) :
    velocityFor issues s = specVelocitySum issues s := by
  rw [velocityFor_eq_clean,
    cleanJira_filter_map_points issues hs
      (fun c => c.status == "Done" && c.itype == "Story")
      (fun i => i.status == "Done" && i.itype == "Story")
      (fun i m => rfl)]
  unfold specVelocitySum
  have hb : ∀ i ∈ issues,
      (i.sprintID == s && (i.status == "Done" && i.itype == "Story"))
        = (i.itype == "Story" && i.status == "Done" && i.sprintID == s) := by
    intro i _
    cases h1 : (i.itype == "Story") <;> cases h2 : (i.status == "Done") <;>
      cases h3 : (i.sprintID == s) <;> simp [h1, h2, h3]
  rw [List.filter_congr hb]

lemma committedFor_eq_raw (issues : List JiraIssue) {s : String} {n : Nat}
    (hs : parseSprintNumeric s = some n) :
    committedFor issues s = specCommittedSum issues s := by
  rw [committedFor_eq_clean,
    cleanJira_filter_map_points issues hs
      (fun c => c.itype == "Story")
      (fun i => i.itype == "Story")
      (fun i m => rfl)]
  unfold specCommittedSum
  have hb : ∀ i ∈ issues,
      (i.sprintID == s && i.itype == "Story")
        = (i.itype == "Story" && i.sprintID == s) := by
    intro i _
    cases h1 : (i.itype == "Story") <;> cases h3 : (i.sprintID == s) <;>
      simp [h1, h3]
  rw [List.filter_congr hb]

/-! ## Lookup shape of the merged views -/

lemma lookup_completionTrend (issues : List JiraIssue) (s : String)
    (hs : s ∈ uniqueSprintsSorted issues) :
    List.lookup s (completionTrend issues)
      = some (committedFor issues s, velocityFor issues s) := by
  unfold completionTrend committedPairs velocityPairs
  exact lookup_outerMergeFill_graph (committedFor issues) (velocityFor issues)
    (uniqueSprintsSorted issues) s hs

lemma lookup_densityCounts (issues : List JiraIssue) (defects : List Defect)
    (s : String) (hs : s ∈ uniqueSprintsSorted issues) :
    List.lookup s (densityCounts issues defects)
      = some (defectCountFor defects s, storyCountFor issues s) := by
  unfold densityCounts defectCountPairs storyCountPairs
  exact lookup_outerMergeFill_graph (defectCountFor defects) (storyCountFor issues)
    (uniqueSprintsSorted issues) s hs

/-! ## RAID display lemma -/

lemma display_open_of_status_open (today : Int) (r : RaidItem)
    (h : r.status = "Open") : get_raid_status_display today r = "⚠️ Open" := by
  have hc : (containsSub "Open" r.status || containsSub "New" r.status) = true := by
    rw [h]; decide
  simp [get_raid_status_display, hc]

/-! ## The claims -/

/-- C1 (code bug).  The spec requires strict precedence Overdue over Open
for the RAID aggregate status: a category with an overdue open item must
show the critical indicator.  In the source the per-item classifier tests
the Open substring before the overdue test, and the aggregate assignment
writes the warning indicator after the critical one, so on the spec example
(two open Risk items, one with a past target date, today = 100 later than
target 50) the category shows the warning indicator, with total 2 and
open 2, and never the critical one. -/
theorem raidStatusPrecedenceBug :
    get_raid_status_display 100 ⟨"Risk", "Open", "owner", some 50⟩ = "⚠️ Open"
    ∧ raidSummary 100
        [⟨"Risk", "Open", "owner", some 50⟩, ⟨"Risk", "Open", "owner", some 200⟩]
        = [⟨"Risk", "⚠️", 2, 2⟩]
    ∧ ("⚠️" : String) ≠ "🚨" := by
  refine ⟨by decide, by decide, by decide⟩

/-- C2 (counterexample).  A sprint present only in the defects table is
omitted from the merged density view: with one JIRA story in SPRINT-1 and
one defect raised in SPRINT-9, the density view has a single record for
SPRINT-1 and no record for SPRINT-9 at all. -/
theorem densityOmitsDefectOnlySprint :
    (⟨"SPRINT-9", "Open", "UAT"⟩ : Defect)
        ∈ [(⟨"SPRINT-9", "Open", "UAT"⟩ : Defect)]
    ∧ densityCounts [⟨"Story", "Done", "SPRINT-1", "alice", some 1⟩]
        [⟨"SPRINT-9", "Open", "UAT"⟩] = [("SPRINT-1", 0, 1)]
    ∧ List.lookup "SPRINT-9"
        (densityCounts [⟨"Story", "Done", "SPRINT-1", "alice", some 1⟩]
          [⟨"SPRINT-9", "Open", "UAT"⟩]) = none := by
  refine ⟨by decide, by decide, by decide⟩

/-- C2 (amended).  The sprint-keyed merged views are total over the
canonical sprint axis derived from the JIRA table: every sprint of the axis
has a completion record (committed paired with completed) and a density
record (defect count paired with story count), each count 0 when that side
has no matching rows, never an omission.  Sprints appearing only in the
defects table are not on the axis (see the counterexample). -/
theorem mergedViewsTotalOverAxis :
    ∀ (issues : List JiraIssue) (defects : List Defect) (s : String),
      s ∈ uniqueSprintsSorted issues →
      List.lookup s (completionTrend issues)
        = some (committedFor issues s, velocityFor issues s)
      ∧ List.lookup s (densityCounts issues defects)
        = some (defectCountFor defects s, storyCountFor issues s) := by
  intro issues defects s hs
  exact ⟨lookup_completionTrend issues s hs,
    lookup_densityCounts issues defects s hs⟩

theorem mergedViewsTotalOverAxis_witness :
    List.lookup "SPRINT-1"
        (completionTrend [⟨"Story", "Done", "SPRINT-1", "alice", some 1⟩])
      = some (committedFor [⟨"Story", "Done", "SPRINT-1", "alice", some 1⟩] "SPRINT-1",
          velocityFor [⟨"Story", "Done", "SPRINT-1", "alice", some 1⟩] "SPRINT-1")
    ∧ List.lookup "SPRINT-1"
        (densityCounts [⟨"Story", "Done", "SPRINT-1", "alice", some 1⟩]
          [⟨"SPRINT-9", "Open", "UAT"⟩])
      = some (defectCountFor [⟨"SPRINT-9", "Open", "UAT"⟩] "SPRINT-1",
          storyCountFor [⟨"Story", "Done", "SPRINT-1", "alice", some 1⟩] "SPRINT-1") :=
  mergedViewsTotalOverAxis [⟨"Story", "Done", "SPRINT-1", "alice", some 1⟩]
    [⟨"SPRINT-9", "Open", "UAT"⟩] "SPRINT-1" (by decide)

/-- C3.  For every sprint on the canonical axis, the completion record
pairs the committed figure (sum of story points of all raw Story-type
issues of that sprint, any status) with the velocity figure (sum of story
points of raw Story-type Done issues of that sprint); and the spec example
evaluates to committed 8, completed 5 for SPRINT-2. -/
theorem velocityAndCompletionFromRawIssues :
    (∀ (issues : List JiraIssue) (s : String), s ∈ uniqueSprintsSorted issues →
      List.lookup s (completionTrend issues)
        = some (specCommittedSum issues s, specVelocitySum issues s))
    ∧ completionTrend
        [⟨"Story", "Done", "SPRINT-2", "alice", some 5⟩,
          ⟨"Story", "ToDo", "SPRINT-2", "bob", some 3⟩]
        = [("SPRINT-2", 8, 5)] := by
  constructor
  · intro issues s hs
    obtain ⟨n, hn⟩ := parsable_of_mem_axis hs
    rw [lookup_completionTrend issues s hs, committedFor_eq_raw issues hn,
      velocityFor_eq_raw issues hn]
  · decide

theorem velocityAndCompletionFromRawIssues_witness :
    List.lookup "SPRINT-2"
        (completionTrend [⟨"Story", "Done", "SPRINT-2", "alice", some 5⟩,
          ⟨"Story", "ToDo", "SPRINT-2", "bob", some 3⟩])
      = some (specCommittedSum [⟨"Story", "Done", "SPRINT-2", "alice", some 5⟩,
            ⟨"Story", "ToDo", "SPRINT-2", "bob", some 3⟩] "SPRINT-2",
          specVelocitySum [⟨"Story", "Done", "SPRINT-2", "alice", some 5⟩,
            ⟨"Story", "ToDo", "SPRINT-2", "bob", some 3⟩] "SPRINT-2") :=
  velocityAndCompletionFromRawIssues.1
    [⟨"Story", "Done", "SPRINT-2", "alice", some 5⟩,
      ⟨"Story", "ToDo", "SPRINT-2", "bob", some 3⟩] "SPRINT-2" (by decide)

/-- C7.  The ordinal parsed from a sprint identifier equals its embedded
integer (the first maximal digit run when it is the only one); rows whose
sprint identifier has no parsable integer have no effect on any
sprint-keyed output (axis, completion, density, capacity window); and the
canonical axis is deduplicated and sorted by the parsed ordinal, every
element parsable. -/
theorem sprintOrdinalParsingAndExclusion :
    (∀ (s : String) (pre ds post : List Char), s.data = pre ++ ds ++ post →
      (∀ c ∈ pre, c.isDigit = false) → ds ≠ [] → (∀ c ∈ ds, c.isDigit = true) →
      (∀ c, post.head? = some c → c.isDigit = false) →
      parseSprintNumeric s = some (natOfDigits ds))
    ∧ (∀ (issues : List JiraIssue) (defects : List Defect),
        uniqueSprintsSorted (issues.filter parsableJira) = uniqueSprintsSorted issues
        ∧ completionTrend (issues.filter parsableJira) = completionTrend issues
        ∧ densityCounts (issues.filter parsableJira) (defects.filter parsableDefect)
            = densityCounts issues defects
        ∧ capacityData (issues.filter parsableJira) = capacityData issues)
    ∧ (∀ issues : List JiraIssue,
        List.Sorted (fun a b => sprintSortKey a ≤ sprintSortKey b)
          (uniqueSprintsSorted issues)
        ∧ (uniqueSprintsSorted issues).Nodup
        ∧ ∀ s ∈ uniqueSprintsSorted issues, (parseSprintNumeric s).isSome = true) := by
  refine ⟨parseSprintNumeric_decomp, ?_, ?_⟩
  · intro issues defects
    refine ⟨uniqueSprintsSorted_filter_parsable issues, ?_, ?_, ?_⟩
    · unfold completionTrend committedPairs velocityPairs
      simp only [uniqueSprintsSorted_filter_parsable, velocityFor_filter_parsable,
        committedFor_filter_parsable]
    · unfold densityCounts defectCountPairs storyCountPairs
      simp only [uniqueSprintsSorted_filter_parsable, storyCountFor_filter_parsable]
      congr 1
      apply List.map_congr_left
      intro s hsmem
      obtain ⟨n, hn⟩ := parsable_of_mem_axis hsmem
      rw [defectCountFor_filter_parsable hn]
    · simp only [capacityData, recentJira, latestSprintNames,
        latestSprintNumerics, sortedJira_filter_parsable]
  · intro issues
    refine ⟨?_, ?_, ?_⟩
    · unfold uniqueSprintsSorted
      exact List.sorted_insertionSort _ _
    · unfold uniqueSprintsSorted
      exact ((List.perm_insertionSort
          (fun a b => sprintSortKey a ≤ sprintSortKey b) _).symm).nodup
        (nodup_dedupKeepFirst _ _)
    · intro s hs
      obtain ⟨n, hn⟩ := parsable_of_mem_axis hs
      rw [hn]
      rfl

theorem sprintOrdinalParsingAndExclusion_witness :
    parseSprintNumeric "SPRINT-12" = some (natOfDigits [Char.ofNat 49, Char.ofNat 50]) :=
  sprintOrdinalParsingAndExclusion.1 "SPRINT-12"
    [Char.ofNat 83, Char.ofNat 80, Char.ofNat 82, Char.ofNat 73,
      Char.ofNat 78, Char.ofNat 84, Char.ofNat 45]
    [Char.ofNat 49, Char.ofNat 50] [] (by decide) (by decide) (by decide)
    (by decide) (by decide)

/-- C8.  Each record of the merged density view yields a density ratio
record; the ratio is undefined (none, the model of NaN) exactly when the
story count is zero, never zero and never a raised error (the function is
total), and otherwise it is the exact quotient. -/
theorem densityUndefinedOnZeroStories :
    ∀ (issues : List JiraIssue) (defects : List Defect),
      ∀ r ∈ densityCounts issues defects,
        (r.1, defectDensity r.2.1 r.2.2) ∈ densityRatios issues defects
        ∧ (r.2.2 = 0 → defectDensity r.2.1 r.2.2 = none)
        ∧ (r.2.2 ≠ 0 →
            defectDensity r.2.1 r.2.2 = some ((r.2.1 : ℚ) / (r.2.2 : ℚ))) := by
  intro issues defects r hr
  refine ⟨?_, ?_, ?_⟩
  · unfold densityRatios
    exact List.mem_map_of_mem (fun r => (r.1, defectDensity r.2.1 r.2.2)) hr
  · intro h0
    simp [defectDensity, h0]
  · intro hne
    simp [defectDensity, hne]

theorem densityUndefinedOnZeroStories_witness :
    (("SPRINT-1", (none : Option ℚ)))
        ∈ densityRatios [⟨"Bug", "Done", "SPRINT-1", "alice", none⟩]
            [⟨"SPRINT-1", "Open", "UAT"⟩]
    ∧ defectDensity 1 0 = none := by
  have h := densityUndefinedOnZeroStories
    [⟨"Bug", "Done", "SPRINT-1", "alice", none⟩] [⟨"SPRINT-1", "Open", "UAT"⟩]
    ("SPRINT-1", 1, 0) (by decide)
  exact ⟨h.1, h.2.1 rfl⟩

/-- C10.  In every record of the RAID summary the Open count equals the
Total count: only rows whose Status is Open are aggregated, and the
per-item classifier maps every such row to the Open display, so no
category can report a Total above its Open count. -/
theorem raidOpenEqualsTotal :
    ∀ (today : Int) (raid : List RaidItem),
      ∀ rec ∈ raidSummary today raid, rec.openCount = rec.total := by
  intro today raid rec hrec
  unfold raidSummary at hrec
  rcases List.mem_map.mp hrec with ⟨t, ht, hrec2⟩
  subst hrec2
  dsimp only
  apply length_filter_map_const (get_raid_status_display today) "⚠️ Open"
  intro r hr
  have h1 := (List.mem_filter.mp hr).1
  have h2 := (List.mem_filter.mp h1).2
  exact display_open_of_status_open today r (beq_iff_eq.mp h2)

theorem raidOpenEqualsTotal_witness :
    (⟨"Risk", "⚠️", 2, 2⟩ : RaidRecord)
        ∈ raidSummary 100
          [⟨"Risk", "Open", "owner", some 50⟩, ⟨"Risk", "Open", "owner", some 200⟩]
    ∧ (⟨"Risk", "⚠️", 2, 2⟩ : RaidRecord).openCount
        = (⟨"Risk", "⚠️", 2, 2⟩ : RaidRecord).total :=
  ⟨by decide, raidOpenEqualsTotal 100
    [⟨"Risk", "Open", "owner", some 50⟩, ⟨"Risk", "Open", "owner", some 200⟩]
    ⟨"Risk", "⚠️", 2, 2⟩ (by decide)⟩

/-! ## Agent loop lemmas (C4) -/

lemma chatLoop_calls_le (respond : List Msg → ModelTurn)
    (exec : String → List (String × Value) → ToolOutcome) :
    ∀ (fuel : Nat) (history : List Msg),
      (chatLoop respond exec fuel history).modelCalls ≤ fuel := by
  intro fuel
  induction fuel with
  | zero => intro h; exact Nat.le_refl 0
  | succ n ih =>
    intro h
    cases hr : respond h with
    | apiError e => simp [chatLoop, hr]
    | emptyCandidate => simp [chatLoop, hr]
    | content parts =>
      simp only [chatLoop, hr]
      by_cases hf : (functionCallsOf parts).isEmpty
      · simp only [hf, if_true]
        by_cases ht : (parts.filterMap partTextOf).isEmpty
        · simp [ht]
        · simp [ht]
      · simp only [hf, Bool.false_eq_true, if_false]
        exact Nat.succ_le_succ (ih _)

lemma chatLoop_allToolCalls (respond : List Msg → ModelTurn)
    (exec : String → List (String × Value) → ToolOutcome)
    (hall : ∀ h, hasFunctionCall (respond h)) :
    ∀ (fuel : Nat) (history : List Msg),
      (chatLoop respond exec fuel history).response? = some maxTurnsMsg
      ∧ (chatLoop respond exec fuel history).modelCalls = fuel
      ∧ ∃ ext, (chatLoop respond exec fuel history).history = history ++ ext := by
  intro fuel
  induction fuel with
  | zero => intro h; exact ⟨rfl, rfl, [], by simp [chatLoop]⟩
  | succ n ih =>
    intro h
    obtain ⟨parts, hp, hne⟩ := hall h
    have hempty : (functionCallsOf parts).isEmpty = false := by
      cases hfc : functionCallsOf parts with
      | nil => exact absurd hfc hne
      | cons a l => rfl
    obtain ⟨h1, h2, ext, h3⟩ :=
      ih (h ++ (functionCallsOf parts).map fun c => toolResultMsg c.1 (exec c.1 c.2))
    simp only [chatLoop, hp, hempty, Bool.false_eq_true, if_false]
    exact ⟨h1, by rw [h2], (functionCallsOf parts).map
      (fun c => toolResultMsg c.1 (exec c.1 c.2)) ++ ext,
      by rw [h3, List.append_assoc]⟩

/-- C4.  chat_with_agent performs at most 5 model calls for every model
behaviour, tool executor, query and starting history; and when every model
response requests tool calls it performs exactly 5 calls, terminates with
the maximum-turn message, and hands back the accumulated history (the
entry history extended by the appended tool results). -/
theorem agentLoopTurnCap :
    ∀ (respond : List Msg → ModelTurn)
      (exec : String → List (String × Value) → ToolOutcome)
      (userQuery : String) (history : List Msg),
      (chat_with_agent respond exec userQuery history).modelCalls ≤ 5
      ∧ ((∀ h, hasFunctionCall (respond h)) →
          (chat_with_agent respond exec userQuery history).modelCalls = 5
          ∧ (chat_with_agent respond exec userQuery history).response?
              = some maxTurnsMsg
          ∧ ∃ ext, (chat_with_agent respond exec userQuery history).history
              = entryHistory history userQuery ++ ext) := by
  intro respond exec q h
  refine ⟨chatLoop_calls_le respond exec 5 (entryHistory h q), fun hall => ?_⟩
  obtain ⟨h1, h2, ext, h3⟩ :=
    chatLoop_allToolCalls respond exec hall 5 (entryHistory h q)
  exact ⟨h2, h1, ext, h3⟩

theorem agentLoopTurnCap_witness :
    (chat_with_agent (fun _ => ModelTurn.content [Part.functionCall "t" []])
        (fun _ _ => ToolOutcome.ok (Value.str "r")) "hi" []).modelCalls = 5
    ∧ (chat_with_agent (fun _ => ModelTurn.content [Part.functionCall "t" []])
        (fun _ _ => ToolOutcome.ok (Value.str "r")) "hi" []).response?
        = some maxTurnsMsg := by
  have h := (agentLoopTurnCap (fun _ => ModelTurn.content [Part.functionCall "t" []])
    (fun _ _ => ToolOutcome.ok (Value.str "r")) "hi" []).2
    (fun _ => ⟨[Part.functionCall "t" []], rfl, by decide⟩)
  exact ⟨h.1, h.2.1⟩

/-- C5.  Tool dispatch is total: it always returns a plain value.  An
unregistered name returns an error value that contains the offending name,
and an exception raised by the wrapped tool function is caught and returned
as the descriptive error string, never propagated. -/
theorem toolDispatchTotal :
    ∀ (registry : Registry) (toolName : String)
      (args preloaded : List (String × Value)),
      (List.lookup toolName registry = none →
        ∃ p q, execute_tool registry toolName args preloaded
          = .errorMsg (p ++ toolName ++ q))
      ∧ (∀ tool, List.lookup toolName registry = some tool →
          (∀ v, tool.func (resolveCallArgs tool.parameters args preloaded)
              = Except.ok v →
            execute_tool registry toolName args preloaded = .ok v)
          ∧ (∀ e, tool.func (resolveCallArgs tool.parameters args preloaded)
              = Except.error e →
            execute_tool registry toolName args preloaded
              = .errorMsg ("Error executing tool \'" ++ toolName ++ "\': " ++ e))) := by
  intro registry toolName args preloaded
  constructor
  · intro hnone
    refine ⟨"Error: Tool \'", "\' not found in registry.", ?_⟩
    simp [execute_tool, hnone]
  · intro tool hsome
    constructor
    · intro v hv
      simp [execute_tool, hsome, hv]
    · intro e he
      simp [execute_tool, hsome, he]

theorem toolDispatchTotal_witness :
    (∃ p q, execute_tool
        [("boom", ⟨"demo", fun _ => Except.error "division by zero", []⟩)]
        "nope" [] [] = .errorMsg (p ++ "nope" ++ q))
    ∧ execute_tool
        [("boom", ⟨"demo", fun _ => Except.error "division by zero", []⟩)]
        "boom" [] []
        = .errorMsg ("Error executing tool \'boom\': division by zero") := by
  refine ⟨(toolDispatchTotal
    [("boom", ⟨"demo", fun _ => Except.error "division by zero", []⟩)]
    "nope" [] []).1 rfl, ?_⟩
  exact ((toolDispatchTotal
    [("boom", ⟨"demo", fun _ => Except.error "division by zero", []⟩)]
    "boom" [] []).2 _ rfl).2 "division by zero" rfl

/-! ## Retry policy lemmas (C6) -/

lemma fetchLoop_succ (attempts : Nat → HttpAttempt) (attempt r : Nat) :
    fetchLoop attempts attempt (r + 1)
      = match attempts attempt with
        | .success body => ⟨1, [], .ok body⟩
        | .httpError statusCode text =>
          if retryableStatus statusCode && decide (attempt < MAX_RETRIES - 1) then
            let rest := fetchLoop attempts (attempt + 1) r
            ⟨rest.calls + 1, 2 ^ attempt :: rest.sleeps, rest.result⟩
          else
            ⟨1, [], .error ("AI API Error: HTTP Error: " ++ toString statusCode
              ++ " - " ++ text)⟩
        | .otherExc msg =>
          ⟨1, [], .error
            ("An unexpected error occurred during the API call: " ++ msg)⟩ := rfl

/-- C6.  A missing API key short-circuits with the credential error and no
HTTP call.  When every attempt fails with a retryable status (429, 500 or
503) the loop makes exactly MAX_RETRIES calls, sleeping 1, 2, 4 and 8
seconds between them, and surfaces the terminal error string of the last
attempt.  A non-retryable HTTP error on the first attempt returns at once
after a single call with no sleep. -/
theorem fetchRetryPolicy :
    ∀ (apiKey : String) (attempts : Nat → HttpAttempt),
      (apiKey = "" → fetch_gemini_response apiKey attempts
        = ⟨0, [], .error "API Key required for AI analysis."⟩)
      ∧ (apiKey ≠ "" →
          (∀ i, i < MAX_RETRIES →
            ∃ st text, attempts i = .httpError st text ∧ retryableStatus st = true) →
          (fetch_gemini_response apiKey attempts).calls = MAX_RETRIES
          ∧ (fetch_gemini_response apiKey attempts).sleeps = [1, 2, 4, 8]
          ∧ ∃ st text, attempts 4 = .httpError st text
              ∧ (fetch_gemini_response apiKey attempts).result
                  = .error ("AI API Error: HTTP Error: " ++ toString st
                      ++ " - " ++ text))
      ∧ (apiKey ≠ "" → ∀ st text, attempts 0 = .httpError st text →
          retryableStatus st = false →
          fetch_gemini_response apiKey attempts
            = ⟨1, [], .error ("AI API Error: HTTP Error: " ++ toString st
                ++ " - " ++ text)⟩) := by
  intro apiKey attempts
  refine ⟨fun h => ?_, fun hk hall => ?_, fun hk st text h0 hr => ?_⟩
  · unfold fetch_gemini_response
    rw [if_pos h]
  · obtain ⟨st0, t0, h0, r0⟩ := hall 0 (by decide)
    obtain ⟨st1, t1, h1, r1⟩ := hall 1 (by decide)
    obtain ⟨st2, t2, h2, r2⟩ := hall 2 (by decide)
    obtain ⟨st3, t3, h3, r3⟩ := hall 3 (by decide)
    obtain ⟨st4, t4, h4, r4⟩ := hall 4 (by decide)
    have he : fetch_gemini_response apiKey attempts = fetchLoop attempts 0 5 := by
      unfold fetch_gemini_response
      rw [if_neg hk]
      rfl
    have s4 : fetchLoop attempts 4 1
        = ⟨1, [], .error ("AI API Error: HTTP Error: " ++ toString st4
            ++ " - " ++ t4)⟩ := by
      rw [show (1 : Nat) = 0 + 1 from rfl, fetchLoop_succ, h4]
      simp [r4, MAX_RETRIES]
    have s3 : fetchLoop attempts 3 2
        = ⟨2, [8], .error ("AI API Error: HTTP Error: " ++ toString st4
            ++ " - " ++ t4)⟩ := by
      rw [show (2 : Nat) = 1 + 1 from rfl, fetchLoop_succ, h3]
      simp [r3, MAX_RETRIES, s4]
    have s2 : fetchLoop attempts 2 3
        = ⟨3, [4, 8], .error ("AI API Error: HTTP Error: " ++ toString st4
            ++ " - " ++ t4)⟩ := by
      rw [show (3 : Nat) = 2 + 1 from rfl, fetchLoop_succ, h2]
      simp [r2, MAX_RETRIES, s3]
    have s1 : fetchLoop attempts 1 4
        = ⟨4, [2, 4, 8], .error ("AI API Error: HTTP Error: " ++ toString st4
            ++ " - " ++ t4)⟩ := by
      rw [show (4 : Nat) = 3 + 1 from rfl, fetchLoop_succ, h1]
      simp [r1, MAX_RETRIES, s2]
    have s0 : fetchLoop attempts 0 5
        = ⟨5, [1, 2, 4, 8], .error ("AI API Error: HTTP Error: " ++ toString st4
            ++ " - " ++ t4)⟩ := by
      rw [show (5 : Nat) = 4 + 1 from rfl, fetchLoop_succ, h0]
      simp [r0, MAX_RETRIES, s1]
    rw [he, s0]
    exact ⟨rfl, rfl, st4, t4, h4, rfl⟩
  · unfold fetch_gemini_response
    rw [if_neg hk]
    rw [show MAX_RETRIES = 4 + 1 from rfl, fetchLoop_succ, h0]
    simp [hr]

theorem fetchRetryPolicy_witness :
    fetch_gemini_response "" (fun _ => HttpAttempt.httpError 429 "rate")
      = ⟨0, [], .error "API Key required for AI analysis."⟩
    ∧ (fetch_gemini_response "key" (fun _ => HttpAttempt.httpError 429 "rate")).calls
        = MAX_RETRIES
    ∧ (fetch_gemini_response "key" (fun _ => HttpAttempt.httpError 429 "rate")).sleeps
        = [1, 2, 4, 8]
    ∧ fetch_gemini_response "key" (fun _ => HttpAttempt.httpError 404 "not found")
        = ⟨1, [], .error ("AI API Error: HTTP Error: " ++ toString 404
            ++ " - " ++ "not found")⟩ := by
  have hz := (fetchRetryPolicy "" (fun _ => HttpAttempt.httpError 429 "rate")).1 rfl
  have hta := (fetchRetryPolicy "key" (fun _ => HttpAttempt.httpError 429 "rate")).2.1
    (by decide) (fun i _ => ⟨429, "rate", rfl, rfl⟩)
  have htb := (fetchRetryPolicy "key" (fun _ => HttpAttempt.httpError 404 "not found")).2.2
    (by decide) 404 "not found" rfl rfl
  exact ⟨hz, hta.1, hta.2.1, htb⟩

/-- C9.  When any of the three tables lacks one of its required columns,
load_and_process_data returns the labeled error value naming exactly the
missing columns of the first failing table, and no metric output is
produced alongside it; the tables are checked in the order JIRA, defects,
RAID. -/
theorem missingColumnsAbortProcessing :
    ∀ (today : Int) (inp : RawInput),
      (missingCols required_jira_cols inp.jiraColumns ≠ [] →
        load_and_process_data today inp
          = .error ("JIRA data is missing required columns: "
              ++ String.intercalate ", "
                  (missingCols required_jira_cols inp.jiraColumns) ++ ".")
        ∧ ∀ m, load_and_process_data today inp ≠ .ok m)
      ∧ (missingCols required_jira_cols inp.jiraColumns = [] →
          missingCols required_defects_cols inp.defectColumns ≠ [] →
          load_and_process_data today inp
            = .error ("Defects data is missing required columns: "
                ++ String.intercalate ", "
                    (missingCols required_defects_cols inp.defectColumns) ++ ".")
          ∧ ∀ m, load_and_process_data today inp ≠ .ok m)
      ∧ (missingCols required_jira_cols inp.jiraColumns = [] →
          missingCols required_defects_cols inp.defectColumns = [] →
          missingCols required_raid_cols inp.raidColumns ≠ [] →
          load_and_process_data today inp
            = .error ("RAID data is missing required columns: "
                ++ String.intercalate ", "
                    (missingCols required_raid_cols inp.raidColumns) ++ ".")
          ∧ ∀ m, load_and_process_data today inp ≠ .ok m) := by
  intro today inp
  refine ⟨fun hj => ?_, fun hj hd => ?_, fun hj hd hr => ?_⟩
  · unfold load_and_process_data
    rw [if_pos hj]
    exact ⟨rfl, fun m hc => ProcessResult.noConfusion hc⟩
  · unfold load_and_process_data
    rw [if_neg (fun hc => hc hj), if_pos hd]
    exact ⟨rfl, fun m hc => ProcessResult.noConfusion hc⟩
  · unfold load_and_process_data
    rw [if_neg (fun hc => hc hj), if_neg (fun hc => hc hd), if_pos hr]
    exact ⟨rfl, fun m hc => ProcessResult.noConfusion hc⟩

theorem missingColumnsAbortProcessing_witness :
    load_and_process_data 0
        ⟨["Type", "Status", "SprintID", "Assignee"], [],
          ["RaisedIn", "Status", "Phase"], [],
          ["Type", "Status", "Owner", "Target Date"], []⟩
      = .error ("JIRA data is missing required columns: "
          ++ String.intercalate ", "
              (missingCols required_jira_cols
                ["Type", "Status", "SprintID", "Assignee"]) ++ ".") :=
  ((missingColumnsAbortProcessing 0
    ⟨["Type", "Status", "SprintID", "Assignee"], [],
      ["RaisedIn", "Status", "Phase"], [],
      ["Type", "Status", "Owner", "Target Date"], []⟩).1 (by decide)).1

end ProjectDashboard
